import Mathlib

/-!
Verification of the UDP transceiver (src/cpp/src/Ice/UdpTransceiver.cpp).

The transceiver pairs a non-blocking OS socket with explicit poll/select
waits. We embed the control flow of `write`, `read`, `setBufSize`, the two
constructors and the shutdown/step state machine as fueled executable
functions over an oracle `OS` that supplies the outcome of each syscall
(`send`, `recv`, `poll`) and the value of the `_shutdownReadWrite` flag
observed at each check. The trace of syscall events is recorded so that
"performs no syscall" style properties are expressible. C++ `throw e`
versus `throw new e` is distinguished by the `Thrown` wrapper, because a
pointer throw is not caught by the by-reference handlers used for the
by-value exception hierarchy. The POSIX (`#else`) branches of the source
are the ones embedded.
-/

namespace UdpTransceiver

/-- Source constant `_udpOverhead = 20 + 8` (UdpTransceiver.cpp line 650). -/
def udpOverhead : Int := 20 + 8

/-- Source constant `_maxPacketSize = 65535 - _udpOverhead` (line 651). -/
def maxPacketSize : Int := 65535 - udpOverhead

/-- The exceptions thrown by the transceiver code. -/
inductive Exc where
  | datagramLimit
  | timeout
  | connectionLost
  | socketError (code : Int)
  | memoryLimit
deriving DecidableEq, Repr

/-- How an exception object is thrown in the C++: by value (`throw e`) or
as a heap pointer (`throw new e`). Only a by-value throw is caught by the
`catch (const E &)` handlers used for this exception hierarchy. -/
inductive Thrown where
  | val (e : Exc)
  | ptr (e : Exc)
deriving DecidableEq, Repr

/-- Result of a `write`/`read` call: normal return (`true` = completed,
`false` = "not ready") or a thrown exception. -/
inductive IoResult where
  | ok (b : Bool)
  | exc (t : Thrown)
deriving DecidableEq, Repr

/-- Observable syscall events, in program order. `recv` and the waits
carry the argument the source passes to the OS. -/
inductive Event where
  | send
  | recv (maxLen : Int)
  | waitWrite (tmo : Int)
  | waitRead (tmo : Int)
  | connectPeer
deriving DecidableEq, Repr

/-- Outcome of one `::send` syscall. -/
inductive SendRes where
  | ok
  | interrupted
  | wouldBlock
  | err (code : Int)
deriving DecidableEq, Repr

/-- Outcome of one `::poll` wait. `expired` is `rs == 0`. -/
inductive WaitRes where
  | ready
  | expired
  | interrupted
  | err (code : Int)
deriving DecidableEq, Repr

/-- Outcome of one `::recv`/`::recvfrom` syscall. `ok n` delivers an
`n`-byte datagram. -/
inductive RecvRes where
  | ok (n : Nat)
  | interrupted
  | wouldBlock
  | truncated
  | err (code : Int)
deriving DecidableEq, Repr

/-- Oracle for the environment: outcome of the i-th send, wait and
receive syscalls, and the value of `_shutdownReadWrite` observed at the
i-th check in `read` (the flag is written by a concurrent
`shutdownReadWrite`, so successive checks may see different values). -/
structure OS where
  send : Nat → SendRes
  wait : Nat → WaitRes
  recv : Nat → RecvRes
  shut : Nat → Bool

/-- Result of a `write` run: the C++ return/throw plus the event trace. -/
structure WOut where
  result : IoResult
  trace : List Event
deriving DecidableEq, Repr

/-- Step outcome of the `repeatSelect` loop in `write`: either the
function finishes (returns or throws), or control goes back to `repeat`. -/
inductive SelStep where
  | done (out : WOut)
  | again (wi : Nat) (tr : List Event)
deriving Repr

/-- The `repeatSelect` loop of `write` (lines 145-191): check
`timeout == 0`, poll for writability with the given timeout, retry on
EINTR, throw on error, `throw new Ice::TimeoutException` on expiry
(note: thrown as a pointer), and go back to `repeat` on readiness. -/
def writeSelect (os : OS) (timeout : Int) : Nat → Nat → List Event → Option SelStep
  | 0, _, _ => none
  | fuel + 1, wi, tr =>
    if timeout = 0 then some (.done ⟨.ok false, tr⟩)
    else
      match os.wait wi with
      | .interrupted => writeSelect os timeout fuel (wi + 1) (tr ++ [.waitWrite timeout])
      | .err c => some (.done ⟨.exc (.val (.socketError c)), tr ++ [.waitWrite timeout]⟩)
      | .expired => some (.done ⟨.exc (.ptr .timeout), tr ++ [.waitWrite timeout]⟩)
      | .ready => some (.again (wi + 1) (tr ++ [.waitWrite timeout]))

/-- The `repeat` loop of `write` (lines 127-197): send, retry on EINTR,
enter the select loop on EWOULDBLOCK, throw a `SocketException`
otherwise; on success return `true`. -/
def writeRepeat (os : OS) (timeout : Int) : Nat → Nat → Nat → List Event → Option WOut
  | 0, _, _, _ => none
  | fuel + 1, si, wi, tr =>
    match os.send si with
    | .ok => some ⟨.ok true, tr ++ [.send]⟩
    | .interrupted => writeRepeat os timeout fuel (si + 1) wi (tr ++ [.send])
    | .err c => some ⟨.exc (.val (.socketError c)), tr ++ [.send]⟩
    | .wouldBlock =>
      match writeSelect os timeout (fuel + 1) wi (tr ++ [.send]) with
      | none => none
      | some (.done out) => some out
      | some (.again wi' tr') => writeRepeat os timeout fuel (si + 1) wi' tr'

/-- UdpTransceiver::write (lines 108-213): the packet-size ceiling check
`min(_maxPacketSize, _sndSize - _udpOverhead)` throws
`DatagramLimitException` before any syscall, then the send loop runs. -/
def write (os : OS) (sndSize : Int) (bufLen : Nat) (timeout : Int) (fuel : Nat) :
    Option WOut :=
  let packetSize := min maxPacketSize (sndSize - udpOverhead)
  if packetSize < (bufLen : Int) then some ⟨.exc (.val .datagramLimit), []⟩
  else writeRepeat os timeout fuel 0 0 []

/-- Result of a `read` run: the C++ return/throw, the final `_connect`
flag, the final `buf.b.size()`, the event trace, and the number of
shutdown-flag checks performed. -/
structure ROut where
  result : IoResult
  connect : Bool
  bufLen : Nat
  trace : List Event
  iters : Nat
deriving DecidableEq, Repr

/-- Step outcome of the `repeatSelect` loop in `read`. -/
inductive RSel where
  | rthrow (t : Thrown) (tr : List Event)
  | rready (wi : Nat) (tr : List Event)
deriving Repr

/-- The `repeatSelect` loop of `read` (lines 300-330): the source calls
`::poll(fdSet, 1, -1)` - the wait timeout is hard-coded to -1 (infinite),
the `timeout` parameter is not passed; `rs == 0` would throw
`TimeoutException` by value. EINTR retries the wait. -/
def readSelect (os : OS) : Nat → Nat → List Event → Option RSel
  | 0, _, _ => none
  | fuel + 1, wi, tr =>
    match os.wait wi with
    | .interrupted => readSelect os fuel (wi + 1) (tr ++ [.waitRead (-1)])
    | .err c => some (.rthrow (.val (.socketError c)) (tr ++ [.waitRead (-1)]))
    | .expired => some (.rthrow (.val .timeout) (tr ++ [.waitRead (-1)]))
    | .ready => some (.rready (wi + 1) (tr ++ [.waitRead (-1)]))

/-- The `repeat` loop of `read` (lines 242-348): check the shutdown flag
under the lock (throw `ConnectionLostException` if set), `recvfrom` when
`_connect` else `recv`; on success connect to the peer, clear `_connect`,
resize the buffer to the received length and return `true`; EINTR goes
back to `repeat`; EWOULDBLOCK returns `false` when `timeout == 0` and
otherwise enters the select loop; a truncated datagram throws
`DatagramLimitException`; anything else a `SocketException`. -/
def readRepeat (os : OS) (packetSize timeout : Int) :
    Nat → Nat → Nat → Nat → Bool → Nat → List Event → Option ROut
  | 0, _, _, _, _, _, _ => none
  | fuel + 1, ci, si, wi, c, bl, tr =>
    if os.shut ci then some ⟨.exc (.val .connectionLost), c, bl, tr, ci + 1⟩
    else
      match os.recv si with
      | .ok n =>
        if c then some ⟨.ok true, false, n, tr ++ [.recv packetSize, .connectPeer], ci + 1⟩
        else some ⟨.ok true, false, n, tr ++ [.recv packetSize], ci + 1⟩
      | .interrupted =>
        readRepeat os packetSize timeout fuel (ci + 1) (si + 1) wi c bl (tr ++ [.recv packetSize])
      | .truncated => some ⟨.exc (.val .datagramLimit), c, bl, tr ++ [.recv packetSize], ci + 1⟩
      | .err e => some ⟨.exc (.val (.socketError e)), c, bl, tr ++ [.recv packetSize], ci + 1⟩
      | .wouldBlock =>
        if timeout = 0 then some ⟨.ok false, c, bl, tr ++ [.recv packetSize], ci + 1⟩
        else
          match readSelect os (fuel + 1) wi (tr ++ [.recv packetSize]) with
          | none => none
          | some (.rthrow t tr') => some ⟨.exc t, c, bl, tr', ci + 1⟩
          | some (.rready wi' tr') =>
            readRepeat os packetSize timeout fuel (ci + 1) (si + 1) wi' c bl tr'

/-- UdpTransceiver::read (lines 215-364): the ceiling check
`min(_maxPacketSize, _rcvSize - _udpOverhead)` throws
`DatagramLimitException`, then `buf.b.resize(packetSize)` runs before the
first receive attempt, then the receive loop. -/
def read (os : OS) (rcvSize : Int) (bufLen : Nat) (timeout : Int) (c : Bool) (fuel : Nat) :
    Option ROut :=
  let packetSize := min maxPacketSize (rcvSize - udpOverhead)
  if packetSize < (bufLen : Int) then some ⟨.exc (.val .datagramLimit), c, bufLen, [], 0⟩
  else readRepeat os packetSize timeout fuel 0 0 0 c packetSize.toNat []

/-- Warnings emitted by `setBufSize`: `invalid` for an override below the
overhead floor, `clamped` when the OS applied less than requested. -/
inductive BufWarn where
  | invalid
  | clamped
deriving DecidableEq, Repr

/-- One direction of UdpTransceiver::setBufSize (lines 576-644).
`dfltSize` is the OS default read back from the fresh socket, `propVal`
the configured override (`getPropertyAsIntWithDefault` yields `dfltSize`
when absent), and `applied r` the size the OS reports after being asked
to set `r`. Returns the stored `_rcvSize`/`_sndSize` and the warnings. -/
def setBufSizeDir (dfltSize : Int) (propVal : Option Int) (applied : Int → Int) :
    Int × List BufWarn :=
  let sizeRequested := propVal.getD dfltSize
  let w1 : List BufWarn := if sizeRequested < udpOverhead then [.invalid] else []
  let sizeRequested := if sizeRequested < udpOverhead then dfltSize else sizeRequested
  if sizeRequested = dfltSize then (dfltSize, w1)
  else
    let a := applied sizeRequested
    (a, w1 ++ if a < sizeRequested then [.clamped] else [])

/-- The full setBufSize loop: iteration `i = 0` handles the receive
direction, `i = 1` the send direction, each independently. -/
def setBufSize (rcvDflt sndDflt : Int) (rcvProp sndProp : Option Int)
    (rcvApplied sndApplied : Int → Int) : (Int × List BufWarn) × (Int × List BufWarn) :=
  (setBufSizeDir rcvDflt rcvProp rcvApplied, setBufSizeDir sndDflt sndProp sndApplied)

/-- Success/failure of each platform primitive the constructors call, and
the constructor-shape inputs (multicast target, optional interface/TTL).
`createSocket` yields the descriptor on success. These primitives live in
Network.cpp, which is not under src/. -/
structure CtorOS where
  createSocket : Option Nat
  getAddressForServer : Bool
  setBufSize : Bool
  setBlock : Bool
  doConnect : Bool
  doBind : Bool
  setReuseAddress : Bool
  setMcastGroup : Bool
  setMcastInterface : Bool
  setMcastTtl : Bool
  multicast : Bool
  mcastInterfaceGiven : Bool
  mcastTtlSet : Bool
deriving DecidableEq, Repr

/-- Modelled from the spec: the bodies of the platform socket primitives
(`setBufSize` internals, `setBlock`, `doConnect`, `doBind` and the
multicast setters, all declared in Ice/Network.h) are not under src/.
Per the spec ("On any failure during steps 1-4, the socket is released"),
a primitive that fails releases the socket it was handed before the
failure propagates; the constructor body itself only marks the handle
invalid. -/
def releasedOnFailure (fd : Nat) : List Nat := [fd]

/-- Outcome of running a constructor: `ok` is whether construction
completed (a thrown failure rethrown by the `catch` gives `false`), `fd`
the final `_fd` field (`none` = `INVALID_SOCKET`), `connect` the final
`_connect` flag, `closed` the descriptors released during the attempt. -/
structure CtorOut where
  ok : Bool
  fd : Option Nat
  connect : Bool
  closed : List Nat
deriving DecidableEq, Repr

/-- The outbound (connect-mode) constructor (lines 413-474): create the
socket, set buffer sizes, set non-blocking, connect (then `_connect`
becomes false), apply multicast interface/TTL when the target is a
multicast group; `catch (...) { _fd = INVALID_SOCKET; throw; }`. -/
def ctorConnect (p : CtorOS) : CtorOut :=
  match p.createSocket with
  | none => ⟨false, none, true, []⟩
  | some fd =>
    if !p.setBufSize then ⟨false, none, true, releasedOnFailure fd⟩
    else if !p.setBlock then ⟨false, none, true, releasedOnFailure fd⟩
    else if !p.doConnect then ⟨false, none, true, releasedOnFailure fd⟩
    else if p.multicast && p.mcastInterfaceGiven && !p.setMcastInterface then
      ⟨false, none, false, releasedOnFailure fd⟩
    else if p.multicast && p.mcastTtlSet && !p.setMcastTtl then
      ⟨false, none, false, releasedOnFailure fd⟩
    else ⟨true, some fd, false, []⟩

/-- The inbound (bind-mode) constructor (lines 476-565): resolve the bind
address, create the socket, set buffer sizes, set non-blocking, then the
multicast path (reuse, bind, join group) or the unicast path (reuse,
bind); `_connect` keeps the constructor's `connect` flag throughout;
`catch (...) { _fd = INVALID_SOCKET; throw; }`. -/
def ctorBind (p : CtorOS) (connectFlag : Bool) : CtorOut :=
  if !p.getAddressForServer then ⟨false, none, connectFlag, []⟩
  else
    match p.createSocket with
    | none => ⟨false, none, connectFlag, []⟩
    | some fd =>
      if !p.setBufSize then ⟨false, none, connectFlag, releasedOnFailure fd⟩
      else if !p.setBlock then ⟨false, none, connectFlag, releasedOnFailure fd⟩
      else if p.multicast then
        if !p.setReuseAddress then ⟨false, none, connectFlag, releasedOnFailure fd⟩
        else if !p.doBind then ⟨false, none, connectFlag, releasedOnFailure fd⟩
        else if !p.setMcastGroup then ⟨false, none, connectFlag, releasedOnFailure fd⟩
        else ⟨true, some fd, connectFlag, []⟩
      else
        if !p.setReuseAddress then ⟨false, none, connectFlag, releasedOnFailure fd⟩
        else if !p.doBind then ⟨false, none, connectFlag, releasedOnFailure fd⟩
        else ⟨true, some fd, connectFlag, []⟩

/-- The per-instance fields touched after construction: `_connect`, the
`_shutdownReadWrite` flag and whether `_fd` is still open. -/
structure TState where
  connect : Bool
  shut : Bool
  fdOpen : Bool
deriving DecidableEq, Repr

/-- The operations that can run on a constructed transceiver. -/
inductive Op where
  | rd (os : OS) (rcvSize : Int) (bufLen : Nat) (timeout : Int) (fuel : Nat)
  | wr (os : OS) (sndSize : Int) (bufLen : Nat) (timeout : Int) (fuel : Nat)
  | shutdownReadWrite
  | close

/-- State effect of each operation: `read` may clear `_connect` (the flag
it observes is the state's flag or any concurrently set value from the
oracle), `write` touches none of these fields, `shutdownReadWrite` sets
the shutdown flag (lines 63-64), `close` invalidates the descriptor. -/
def stepOp (s : TState) : Op → TState
  | .rd os rcvSize bl t fuel =>
    match read { os with shut := fun i => s.shut || os.shut i } rcvSize bl t s.connect fuel with
    | some out => ⟨out.connect, s.shut, s.fdOpen⟩
    | none => s
  | .wr _ _ _ _ _ => s
  | .shutdownReadWrite => ⟨s.connect, true, s.fdOpen⟩
  | .close => ⟨s.connect, s.shut, false⟩

/-- Oracle where every syscall succeeds at once (3-byte datagrams). -/
def osOk : OS :=
  { send := fun _ => .ok, wait := fun _ => .ready, recv := fun _ => .ok 3,
    shut := fun _ => false }

/-- Oracle: the first receive would block, readability then signaled, and
the next receive delivers 3 bytes. -/
def os1 : OS := { osOk with recv := fun i => if i = 0 then .wouldBlock else .ok 3 }

/-- Oracle: every send would block and every wait expires. -/
def os2 : OS := { osOk with send := fun _ => .wouldBlock, wait := fun _ => .expired }

/-- Oracle: send and receive both report would-block. -/
def osWB : OS := { osOk with send := fun _ => .wouldBlock, recv := fun _ => .wouldBlock }

/-- Oracle: the shutdown flag is observed set at every check. -/
def osShut : OS := { osOk with shut := fun _ => true }

/-- Oracle with no interruptions at all, but every send reports
would-block and every wait reports readiness (spurious readiness). -/
def osSpur : OS := { osOk with send := fun _ => .wouldBlock, wait := fun _ => .ready }

/-- Oracle: the first two sends are interrupted, the third succeeds. -/
def osI : OS := { osOk with send := fun i => if i < 2 then .interrupted else .ok }

/-- Termination of a `write` call: some fuel suffices for the loop to
return or throw. -/
def writeTerminates (os : OS) (sndSize : Int) (bufLen : Nat) (timeout : Int) : Prop :=
  ∃ fuel out, write os sndSize bufLen timeout fuel = some out

/-- Termination of a `read` call. -/
def readTerminates (os : OS) (rcvSize : Int) (bufLen : Nat) (timeout : Int) (c : Bool) : Prop :=
  ∃ fuel out, read os rcvSize bufLen timeout c fuel = some out

/-- The oracle never reports a signal interruption. -/
def interruptionFree (os : OS) : Prop :=
  ∀ i, os.send i ≠ .interrupted ∧ os.wait i ≠ .interrupted ∧ os.recv i ≠ .interrupted

/-- Constructor-primitive oracle where every step succeeds (socket 7,
unicast target). -/
def cosAll : CtorOS :=
  { createSocket := some 7, getAddressForServer := true, setBufSize := true,
    setBlock := true, doConnect := true, doBind := true, setReuseAddress := true,
    setMcastGroup := true, setMcastInterface := true, setMcastTtl := true,
    multicast := false, mcastInterfaceGiven := false, mcastTtlSet := false }

/-- Constructor-primitive oracle where the connect step fails. -/
def cosFailConnect : CtorOS := { cosAll with doConnect := false }

/-- Constructor-primitive oracle where the bind step fails (socket 9). -/
def cosFailBind : CtorOS := { cosAll with createSocket := some 9, doBind := false }

/-- Invariant of the receive loop: a run that returns `true` has cleared
`_connect`, its final buffer length is the length of a delivered
datagram, and (when the loop started with `_connect` set) the peer
connect step appears in the trace; a run that does not return `true`
leaves `_connect` and the buffer length as they were on entry. -/
theorem readRepeat_basic (os : OS) (ps t : Int) :
    ∀ fuel ci si wi c bl tr out,
      readRepeat os ps t fuel ci si wi c bl tr = some out →
      (out.result = .ok true →
        out.connect = false ∧ (∃ i, os.recv i = RecvRes.ok out.bufLen) ∧
          (c = true → Event.connectPeer ∈ out.trace)) ∧
      (out.result ≠ .ok true → out.connect = c ∧ out.bufLen = bl) := by
  intro fuel
  induction fuel with
  | zero =>
    intro ci si wi c bl tr out h
    simp only [readRepeat] at h
    simp at h
  | succ n ih =>
    intro ci si wi c bl tr out h
    rw [readRepeat] at h
    by_cases hs : os.shut ci = true
    · rw [if_pos hs] at h
      injection h with h
      subst h
      refine ⟨fun hres => ?_, fun _ => ⟨rfl, rfl⟩⟩
      simp at hres
    · rw [if_neg hs] at h
      cases hr : os.recv si with
      | ok m =>
        rw [hr] at h
        dsimp only at h
        by_cases hc : c = true
        · rw [if_pos hc] at h
          injection h with h
          subst h
          refine ⟨fun _ => ⟨rfl, ⟨si, hr⟩, fun _ => by simp⟩, fun hres => ?_⟩
          simp at hres
        · rw [if_neg hc] at h
          injection h with h
          subst h
          refine ⟨fun _ => ⟨rfl, ⟨si, hr⟩, fun hct => absurd hct hc⟩, fun hres => ?_⟩
          simp at hres
      | interrupted =>
        rw [hr] at h
        dsimp only at h
        exact ih _ _ _ _ _ _ _ h
      | wouldBlock =>
        rw [hr] at h
        dsimp only at h
        by_cases ht : t = 0
        · rw [if_pos ht] at h
          injection h with h
          subst h
          refine ⟨fun hres => ?_, fun _ => ⟨rfl, rfl⟩⟩
          simp at hres
        · rw [if_neg ht] at h
          cases hsel : readSelect os (n + 1) wi (tr ++ [Event.recv ps]) with
          | none =>
            rw [hsel] at h
            simp at h
          | some r =>
            rw [hsel] at h
            cases r with
            | rthrow th tr' =>
              injection h with h
              subst h
              refine ⟨fun hres => ?_, fun _ => ⟨rfl, rfl⟩⟩
              simp at hres
            | rready wi' tr' => exact ih _ _ _ _ _ _ _ h
      | truncated =>
        rw [hr] at h
        dsimp only at h
        injection h with h
        subst h
        refine ⟨fun hres => ?_, fun _ => ⟨rfl, rfl⟩⟩
        simp at hres
      | err e =>
        rw [hr] at h
        dsimp only at h
        injection h with h
        subst h
        refine ⟨fun hres => ?_, fun _ => ⟨rfl, rfl⟩⟩
        simp at hres

/-- Invariant of the receive loop: a run that returns a datagram saw the
shutdown flag unset at every one of its checks (check `ci` guards the
receive of iteration `ci`). -/
theorem readRepeat_shut (os : OS) (ps t : Int) :
    ∀ fuel ci si wi c bl tr out,
      readRepeat os ps t fuel ci si wi c bl tr = some out →
      out.result = .ok true →
      ∀ i, ci ≤ i → i < out.iters → os.shut i = false := by
  intro fuel
  induction fuel with
  | zero =>
    intro ci si wi c bl tr out h
    simp only [readRepeat] at h
    simp at h
  | succ n ih =>
    intro ci si wi c bl tr out h hres i hci hlt
    rw [readRepeat] at h
    by_cases hs : os.shut ci = true
    · rw [if_pos hs] at h
      injection h with h
      subst h
      simp at hres
    · rw [Bool.not_eq_true] at hs
      rw [if_neg (by simp [hs])] at h
      rcases Nat.lt_or_ge i (ci + 1) with hi | hi
      · have : i = ci := by omega
        subst this
        exact hs
      · cases hr : os.recv si with
        | ok m =>
          rw [hr] at h
          dsimp only at h
          by_cases hc : c = true
          · rw [if_pos hc] at h
            injection h with h
            subst h
            have hlt' : i < ci + 1 := hlt
            omega
          · rw [if_neg hc] at h
            injection h with h
            subst h
            have hlt' : i < ci + 1 := hlt
            omega
        | interrupted =>
          rw [hr] at h
          dsimp only at h
          exact ih _ _ _ _ _ _ _ h hres i hi hlt
        | wouldBlock =>
          rw [hr] at h
          dsimp only at h
          by_cases ht : t = 0
          · rw [if_pos ht] at h
            injection h with h
            subst h
            simp at hres
          · rw [if_neg ht] at h
            cases hsel : readSelect os (n + 1) wi (tr ++ [Event.recv ps]) with
            | none =>
              rw [hsel] at h
              simp at h
            | some r =>
              rw [hsel] at h
              cases r with
              | rthrow th tr' =>
                injection h with h
                subst h
                simp at hres
              | rready wi' tr' => exact ih _ _ _ _ _ _ _ h hres i hi hlt
        | truncated =>
          rw [hr] at h
          dsimp only at h
          injection h with h
          subst h
          simp at hres
        | err e =>
          rw [hr] at h
          dsimp only at h
          injection h with h
          subst h
          simp at hres

/-- The writability-wait loop terminates once the oracle stops reporting
interruptions: fuel `k + 1` suffices whenever at most the first `wi + k`
waits can be interrupted. -/
theorem writeSelect_term (os : OS) (t : Int) (M : Nat)
    (hM : ∀ i, M ≤ i → os.wait i ≠ .interrupted) :
    ∀ k wi tr, M ≤ wi + k → ∃ r, writeSelect os t (k + 1) wi tr = some r := by
  intro k
  induction k with
  | zero =>
    intro wi tr hle
    rw [writeSelect]
    by_cases ht : t = 0
    · rw [if_pos ht]
      exact ⟨_, rfl⟩
    · rw [if_neg ht]
      cases hw : os.wait wi with
      | interrupted => exact absurd hw (hM wi (by omega))
      | ready => exact ⟨_, rfl⟩
      | expired => exact ⟨_, rfl⟩
      | err e => exact ⟨_, rfl⟩
  | succ k ih =>
    intro wi tr hle
    rw [writeSelect]
    by_cases ht : t = 0
    · rw [if_pos ht]
      exact ⟨_, rfl⟩
    · rw [if_neg ht]
      cases hw : os.wait wi with
      | interrupted => exact ih (wi + 1) _ (by omega)
      | ready => exact ⟨_, rfl⟩
      | expired => exact ⟨_, rfl⟩
      | err e => exact ⟨_, rfl⟩

/-- The readability-wait loop terminates once the oracle stops reporting
interruptions. -/
theorem readSelect_term (os : OS) (M : Nat)
    (hM : ∀ i, M ≤ i → os.wait i ≠ .interrupted) :
    ∀ k wi tr, M ≤ wi + k → ∃ r, readSelect os (k + 1) wi tr = some r := by
  intro k
  induction k with
  | zero =>
    intro wi tr hle
    rw [readSelect]
    cases hw : os.wait wi with
    | interrupted => exact absurd hw (hM wi (by omega))
    | ready => exact ⟨_, rfl⟩
    | expired => exact ⟨_, rfl⟩
    | err e => exact ⟨_, rfl⟩
  | succ k ih =>
    intro wi tr hle
    rw [readSelect]
    cases hw : os.wait wi with
    | interrupted => exact ih (wi + 1) _ (by omega)
    | ready => exact ⟨_, rfl⟩
    | expired => exact ⟨_, rfl⟩
    | err e => exact ⟨_, rfl⟩

/-- The send loop terminates when, past some point, sends are neither
interrupted nor spuriously blocked and waits are not interrupted. -/
theorem writeRepeat_term (os : OS) (t : Int) (N M : Nat)
    (hN : ∀ i, N ≤ i → os.send i ≠ .interrupted ∧ os.send i ≠ .wouldBlock)
    (hM : ∀ i, M ≤ i → os.wait i ≠ .interrupted) :
    ∀ k si wi tr, N ≤ si + k →
      ∃ out, writeRepeat os t (k + M + 1) si wi tr = some out := by
  intro k
  induction k with
  | zero =>
    intro si wi tr hle
    rw [writeRepeat]
    cases hsend : os.send si with
    | ok => exact ⟨_, rfl⟩
    | err e => exact ⟨_, rfl⟩
    | interrupted => exact absurd hsend (hN si (by omega)).1
    | wouldBlock => exact absurd hsend (hN si (by omega)).2
  | succ k ih =>
    intro si wi tr hle
    rw [writeRepeat]
    cases hsend : os.send si with
    | ok => exact ⟨_, rfl⟩
    | err e => exact ⟨_, rfl⟩
    | interrupted =>
      have heq : k + 1 + M = k + M + 1 := by omega
      rw [heq]
      exact ih (si + 1) wi _ (by omega)
    | wouldBlock =>
      obtain ⟨r, hr⟩ := writeSelect_term os t M hM (k + 1 + M) wi (tr ++ [Event.send])
        (by omega)
      rw [hr]
      cases r with
      | done out => exact ⟨out, rfl⟩
      | again wi' tr' =>
        have heq : k + 1 + M = k + M + 1 := by omega
        rw [heq]
        exact ih (si + 1) wi' tr' (by omega)

/-- The receive loop terminates when, past some point, receives are
neither interrupted nor spuriously blocked and waits are not
interrupted. -/
theorem readRepeat_term (os : OS) (ps t : Int) (N M : Nat)
    (hN : ∀ i, N ≤ i → os.recv i ≠ .interrupted ∧ os.recv i ≠ .wouldBlock)
    (hM : ∀ i, M ≤ i → os.wait i ≠ .interrupted) :
    ∀ k ci si wi c bl tr, N ≤ si + k →
      ∃ out, readRepeat os ps t (k + M + 1) ci si wi c bl tr = some out := by
  intro k
  induction k with
  | zero =>
    intro ci si wi c bl tr hle
    rw [readRepeat]
    by_cases hs : os.shut ci = true
    · rw [if_pos hs]
      exact ⟨_, rfl⟩
    · rw [if_neg hs]
      cases hrecv : os.recv si with
      | ok n => cases c <;> exact ⟨_, rfl⟩
      | truncated => exact ⟨_, rfl⟩
      | err e => exact ⟨_, rfl⟩
      | interrupted => exact absurd hrecv (hN si (by omega)).1
      | wouldBlock => exact absurd hrecv (hN si (by omega)).2
  | succ k ih =>
    intro ci si wi c bl tr hle
    rw [readRepeat]
    by_cases hs : os.shut ci = true
    · rw [if_pos hs]
      exact ⟨_, rfl⟩
    · rw [if_neg hs]
      cases hrecv : os.recv si with
      | ok n => cases c <;> exact ⟨_, rfl⟩
      | truncated => exact ⟨_, rfl⟩
      | err e => exact ⟨_, rfl⟩
      | interrupted =>
        have heq : k + 1 + M = k + M + 1 := by omega
        rw [heq]
        exact ih (ci + 1) (si + 1) wi c bl _ (by omega)
      | wouldBlock =>
        by_cases ht : t = 0
        · rw [if_pos ht]
          exact ⟨_, rfl⟩
        · rw [if_neg ht]
          obtain ⟨r, hr⟩ := readSelect_term os M hM (k + 1 + M) wi
            (tr ++ [Event.recv ps]) (by omega)
          rw [hr]
          cases r with
          | rthrow th tr' => exact ⟨_, rfl⟩
          | rready wi' tr' =>
            have heq : k + 1 + M = k + M + 1 := by omega
            rw [heq]
            exact ih (ci + 1) (si + 1) wi' c bl tr' (by omega)

/-- A read run never sets `_connect`: if the final flag is set, it was
set on entry. -/
theorem read_connect_mono (os : OS) (rcvSize : Int) (bl : Nat) (t : Int) (c : Bool)
    (fuel : Nat) (out : ROut) (h : read os rcvSize bl t c fuel = some out) :
    out.connect = true → c = true := by
  simp only [read] at h
  by_cases hp : min maxPacketSize (rcvSize - udpOverhead) < (bl : Int)
  · rw [if_pos hp] at h
    injection h with h
    subst h
    exact fun hc => hc
  · rw [if_neg hp] at h
    have hb := readRepeat_basic os _ t fuel 0 0 0 c _ [] out h
    intro hct
    by_cases hres : out.result = .ok true
    · rw [(hb.1 hres).1] at hct
      exact absurd hct (by simp)
    · rw [← (hb.2 hres).1]
      exact hct

/-- C1: with `timeout = 5000` and no pending datagram, `read` invokes the
readability wait with timeout argument -1 (infinite), not with the given
5000: the timeout parameter only governs the `timeout == 0` early return,
and the `rs == 0` timeout branch of the read wait is unreachable. -/
theorem c1_read_wait_ignores_timeout :
    read os1 1000 10 5000 false 5 =
      some ⟨.ok true, false, 3, [.recv 972, .waitRead (-1), .recv 972], 2⟩ ∧
    Event.waitRead 5000 ∉ [Event.recv 972, Event.waitRead (-1), Event.recv 972] :=
  ⟨by rfl, by decide⟩

/-- C2: when the send would block and the writability wait expires, the
code executes `throw new Ice::TimeoutException` (line 188), raising a
pointer rather than the by-value timeout exception that by-reference
handlers of the exception hierarchy catch. -/
theorem c2_write_timeout_thrown_as_pointer :
    write os2 1000 10 100 2 = some ⟨.exc (.ptr .timeout), [.send, .waitWrite 100]⟩ ∧
    Thrown.ptr Exc.timeout ≠ Thrown.val Exc.timeout :=
  ⟨by rfl, by decide⟩

/-- C4: a payload longer than min(65507, sendBufferSize - 28) makes
`write` throw `DatagramLimitException` with an empty syscall trace: no
send and no wait is performed, for any timeout. -/
theorem c4_write_oversize_no_syscall (os : OS) (sndSize : Int) (bufLen : Nat)
    (timeout : Int) (fuel : Nat)
    (h : min maxPacketSize (sndSize - udpOverhead) < (bufLen : Int)) :
    write os sndSize bufLen timeout fuel = some ⟨.exc (.val .datagramLimit), []⟩ := by
  simp only [write]
  rw [if_pos h]

/-- Witness for C4 at `sndSize = 28`, a 1-byte payload. -/
theorem c4_write_oversize_no_syscall_witness :
    min maxPacketSize ((28 : Int) - udpOverhead) < ((1 : Nat) : Int) ∧
    write osOk 28 1 (-1) 0 = some ⟨.exc (.val .datagramLimit), []⟩ :=
  ⟨by decide, c4_write_oversize_no_syscall osOk 28 1 (-1) 0 (by decide)⟩

/-- C8: with `timeout = 0` and a socket that is not ready, `write`
returns `false` (no wait event, no exception) right after the blocked
send, and `read` returns `false` right after the blocked receive, with
the buffer left at the negotiated ceiling. -/
theorem c8_zero_timeout_not_ready (os : OS) (sndSize rcvSize : Int) (blW blR : Nat)
    (c : Bool) (fw fr : Nat)
    (hw : (blW : Int) ≤ min maxPacketSize (sndSize - udpOverhead))
    (hr : (blR : Int) ≤ min maxPacketSize (rcvSize - udpOverhead))
    (hsb : os.send 0 = .wouldBlock)
    (hrb : os.recv 0 = .wouldBlock)
    (hsh : os.shut 0 = false) :
    write os sndSize blW 0 (fw + 1) = some ⟨.ok false, [.send]⟩ ∧
    read os rcvSize blR 0 c (fr + 1) =
      some ⟨.ok false, c, (min maxPacketSize (rcvSize - udpOverhead)).toNat,
        [.recv (min maxPacketSize (rcvSize - udpOverhead))], 1⟩ := by
  constructor
  · simp only [write]
    rw [if_neg (not_lt.mpr hw)]
    rw [writeRepeat, hsb]
    dsimp only
    rw [writeSelect]
    simp
  · simp only [read]
    rw [if_neg (not_lt.mpr hr)]
    rw [readRepeat, hsh]
    simp [hrb]

/-- Witness for C8 at a 1000-byte buffer size and 10-byte buffers. -/
theorem c8_zero_timeout_not_ready_witness :
    ((10 : Nat) : Int) ≤ min maxPacketSize ((1000 : Int) - udpOverhead) ∧
    osWB.send 0 = .wouldBlock ∧ osWB.recv 0 = .wouldBlock ∧ osWB.shut 0 = false ∧
    write osWB 1000 10 0 1 = some ⟨.ok false, [.send]⟩ ∧
    read osWB 1000 10 0 false 1 =
      some ⟨.ok false, false, (min maxPacketSize ((1000 : Int) - udpOverhead)).toNat,
        [.recv (min maxPacketSize ((1000 : Int) - udpOverhead))], 1⟩ :=
  ⟨by decide, by rfl, by rfl, by rfl,
    (c8_zero_timeout_not_ready osWB 1000 1000 10 10 false 0 0 (by decide) (by decide)
      rfl rfl rfl).1,
    (c8_zero_timeout_not_ready osWB 1000 1000 10 10 false 0 0 (by decide) (by decide)
      rfl rfl rfl).2⟩

/-- C6: once the shutdown flag is observed set, a read call raises the
connection-lost error at its first check with an empty syscall trace (no
receive is attempted); and a read that returns a datagram saw the flag
unset at every check it made, so data is never returned from an
iteration at or after the flag was set. -/
theorem c6_shutdown_connection_lost (os : OS) (rcvSize : Int) (bl : Nat) (t : Int)
    (c : Bool) (fuel : Nat) (out : ROut)
    (hpass : (bl : Int) ≤ min maxPacketSize (rcvSize - udpOverhead))
    (hrun : read os rcvSize bl t c fuel = some out) :
    (os.shut 0 = true → out.result = .exc (.val .connectionLost) ∧ out.trace = []) ∧
    (out.result = .ok true → ∀ i, i < out.iters → os.shut i = false) := by
  simp only [read] at hrun
  rw [if_neg (not_lt.mpr hpass)] at hrun
  constructor
  · intro hsh
    cases fuel with
    | zero => simp [readRepeat] at hrun
    | succ n =>
      rw [readRepeat] at hrun
      rw [if_pos hsh] at hrun
      injection hrun with hrun
      subst hrun
      exact ⟨rfl, rfl⟩
  · intro hres i hlt
    exact readRepeat_shut os _ t fuel 0 0 0 c _ [] out hrun hres i (Nat.zero_le i) hlt

/-- Witness for C6: the flag is set before the call; the read raises the
connection-lost error with no syscalls. -/
theorem c6_shutdown_connection_lost_witness :
    ((10 : Nat) : Int) ≤ min maxPacketSize ((1000 : Int) - udpOverhead) ∧
    read osShut 1000 10 (-1) false 3 =
      some ⟨.exc (.val .connectionLost), false, 972, [], 1⟩ ∧
    (osShut.shut 0 = true →
      (ROut.mk (.exc (.val .connectionLost)) false 972 [] 1).result =
          .exc (.val .connectionLost) ∧
        (ROut.mk (.exc (.val .connectionLost)) false 972 [] 1).trace = []) :=
  ⟨by decide, by rfl,
    (c6_shutdown_connection_lost osShut 1000 10 (-1) false 3 _ (by decide) (by rfl)).1⟩

/-- C10: once the ceiling check passes, the buffer is resized to
min(65507, receiveBufferSize - 28) before any receive; every outcome
other than a successful receive leaves the buffer at that ceiling, and
only the success path shrinks it, to the exact received length. -/
theorem c10_read_buffer_frame (os : OS) (rcvSize : Int) (bl0 : Nat) (t : Int)
    (c : Bool) (fuel : Nat) (out : ROut)
    (hpass : (bl0 : Int) ≤ min maxPacketSize (rcvSize - udpOverhead))
    (hrecv : ∀ i n, os.recv i = RecvRes.ok n →
      (n : Int) ≤ min maxPacketSize (rcvSize - udpOverhead))
    (hrun : read os rcvSize bl0 t c fuel = some out) :
    (out.result ≠ .ok true →
      out.bufLen = (min maxPacketSize (rcvSize - udpOverhead)).toNat) ∧
    (out.result = .ok true →
      (∃ i, os.recv i = RecvRes.ok out.bufLen) ∧
      out.bufLen ≤ (min maxPacketSize (rcvSize - udpOverhead)).toNat) := by
  simp only [read] at hrun
  rw [if_neg (not_lt.mpr hpass)] at hrun
  have hb := readRepeat_basic os _ t fuel 0 0 0 c _ [] out hrun
  refine ⟨fun hres => (hb.2 hres).2, fun hres => ⟨(hb.1 hres).2.1, ?_⟩⟩
  obtain ⟨i, hi⟩ := (hb.1 hres).2.1
  have := hrecv i out.bufLen hi
  omega

/-- Witness for C10 on a successful receive of 3 bytes. -/
theorem c10_read_buffer_frame_witness :
    ((10 : Nat) : Int) ≤ min maxPacketSize ((1000 : Int) - udpOverhead) ∧
    read osOk 1000 10 0 false 1 = some ⟨.ok true, false, 3, [.recv 972], 1⟩ ∧
    ((ROut.mk (.ok true) false 3 [.recv 972] 1).result = .ok true →
      (∃ i, osOk.recv i = RecvRes.ok (ROut.mk (.ok true) false 3 [.recv 972] 1).bufLen) ∧
      (ROut.mk (.ok true) false 3 [.recv 972] 1).bufLen ≤
        (min maxPacketSize ((1000 : Int) - udpOverhead)).toNat) :=
  ⟨by decide, by rfl,
    (c10_read_buffer_frame osOk 1000 10 0 false 1 _ (by decide)
      (by intro i n h; simp [osOk] at h; subst h; decide) (by rfl)).2⟩

/-- Failure of any connect-mode step after socket creation marks the
handle invalid and releases the socket. -/
theorem ctorConnect_fail (p : CtorOS) (fd : Nat) (hc : p.createSocket = some fd) :
    (ctorConnect p).ok = false →
    (ctorConnect p).fd = none ∧ fd ∈ (ctorConnect p).closed := by
  unfold ctorConnect
  rw [hc]
  split_ifs <;> simp [releasedOnFailure]

/-- Failure of any bind-mode step after socket creation marks the handle
invalid and releases the socket. -/
theorem ctorBind_fail (q : CtorOS) (flag : Bool) (fd : Nat)
    (ha : q.getAddressForServer = true) (hc : q.createSocket = some fd) :
    (ctorBind q flag).ok = false →
    (ctorBind q flag).fd = none ∧ fd ∈ (ctorBind q flag).closed := by
  unfold ctorBind
  rw [ha, hc]
  split_ifs <;> simp_all [releasedOnFailure]

/-- C3: in each constructor, any failure after the socket was created
leaves the instance with an invalid handle, the created socket released
(by the failing platform primitive, see `releasedOnFailure`), and the
failure reported to the caller. -/
theorem c3_ctor_failure_invalid_and_released (p q : CtorOS) (flag : Bool) (fdC fdB : Nat)
    (hpc : p.createSocket = some fdC) (hpf : (ctorConnect p).ok = false)
    (hqa : q.getAddressForServer = true) (hqc : q.createSocket = some fdB)
    (hqf : (ctorBind q flag).ok = false) :
    (ctorConnect p).fd = none ∧ fdC ∈ (ctorConnect p).closed ∧
    (ctorBind q flag).fd = none ∧ fdB ∈ (ctorBind q flag).closed :=
  ⟨(ctorConnect_fail p fdC hpc hpf).1, (ctorConnect_fail p fdC hpc hpf).2,
    (ctorBind_fail q flag fdB hqa hqc hqf).1, (ctorBind_fail q flag fdB hqa hqc hqf).2⟩

/-- Witness for C3: the connect step fails in connect mode (socket 7),
the bind step fails in bind mode (socket 9). -/
theorem c3_ctor_failure_invalid_and_released_witness :
    cosFailConnect.createSocket = some 7 ∧ (ctorConnect cosFailConnect).ok = false ∧
    cosFailBind.getAddressForServer = true ∧ cosFailBind.createSocket = some 9 ∧
    (ctorBind cosFailBind true).ok = false ∧
    ((ctorConnect cosFailConnect).fd = none ∧ 7 ∈ (ctorConnect cosFailConnect).closed ∧
      (ctorBind cosFailBind true).fd = none ∧ 9 ∈ (ctorBind cosFailBind true).closed) :=
  ⟨by rfl, by rfl, by rfl, by rfl, by rfl,
    c3_ctor_failure_invalid_and_released cosFailConnect cosFailBind true 7 9
      (by rfl) (by rfl) (by rfl) (by rfl) (by rfl)⟩

/-- C5: the bind-mode constructor stores the connect-on-first-packet flag
in `_connect` unchanged; a read that starts with `_connect` set clears it
exactly on a successful receive (performing the peer-connect step) and
leaves it set on every other outcome; and no operation ever turns
`_connect` back on. -/
theorem c5_pending_connect_one_way :
    (∀ p flag, (ctorBind p flag).connect = flag) ∧
    (∀ os rcvSize bl t fuel out, read os rcvSize bl t true fuel = some out →
      (out.result = .ok true → out.connect = false ∧ Event.connectPeer ∈ out.trace) ∧
      (out.result ≠ .ok true → out.connect = true)) ∧
    (∀ s op, (stepOp s op).connect = true → s.connect = true) := by
  refine ⟨?_, ?_, ?_⟩
  · intro p flag
    unfold ctorBind
    split
    · rfl
    · split
      · rfl
      · split_ifs <;> rfl
  · intro os rcvSize bl t fuel out h
    simp only [read] at h
    by_cases hp : min maxPacketSize (rcvSize - udpOverhead) < (bl : Int)
    · rw [if_pos hp] at h
      injection h with h
      subst h
      exact ⟨fun hres => by simp at hres, fun _ => rfl⟩
    · rw [if_neg hp] at h
      have hb := readRepeat_basic os _ t fuel 0 0 0 true _ [] out h
      exact ⟨fun hres => ⟨(hb.1 hres).1, (hb.1 hres).2.2 rfl⟩,
        fun hres => (hb.2 hres).1⟩
  · intro s op
    cases op with
    | rd os rcvSize bl t fuel =>
      simp only [stepOp]
      cases hrun : read { os with shut := fun i => s.shut || os.shut i }
          rcvSize bl t s.connect fuel with
      | none => exact fun h => h
      | some out =>
        intro h
        exact read_connect_mono _ rcvSize bl t s.connect fuel out hrun h
    | wr os sndSize bl t fuel => exact fun h => h
    | shutdownReadWrite => exact fun h => h
    | close => exact fun h => h

/-- Witness for C5 on a successful first receive and a shutdown step. -/
theorem c5_pending_connect_one_way_witness :
    (ctorBind cosAll true).connect = true ∧
    read osOk 1000 10 0 true 1 = some ⟨.ok true, false, 3, [.recv 972, .connectPeer], 1⟩ ∧
    ((ROut.mk (.ok true) false 3 [.recv 972, .connectPeer] 1).result = .ok true →
      (ROut.mk (.ok true) false 3 [.recv 972, .connectPeer] 1).connect = false ∧
        Event.connectPeer ∈ (ROut.mk (.ok true) false 3 [.recv 972, .connectPeer] 1).trace) ∧
    ((stepOp ⟨true, false, true⟩ Op.shutdownReadWrite).connect = true →
      (TState.mk true false true).connect = true) :=
  ⟨c5_pending_connect_one_way.1 cosAll true, by rfl,
    (c5_pending_connect_one_way.2.1 osOk 1000 10 0 1 _ (by rfl)).1,
    c5_pending_connect_one_way.2.2 ⟨true, false, true⟩ Op.shutdownReadWrite⟩

/-- C7 counterexample: with an OS default of 10 bytes and a configured
override of 5, the override is discarded with a warning and the OS
default kept - but the stored size is 10, below the 28-byte floor, so
the negotiated size is not "never below 28 bytes". -/
theorem c7_cex_floor_not_enforced :
    (setBufSizeDir 10 (some 5) (fun r => r)).1 = 10 ∧
    (setBufSizeDir 10 (some 5) (fun r => r)).1 < udpOverhead ∧
    (setBufSizeDir 10 (some 5) (fun r => r)).2 = [BufWarn.invalid] :=
  ⟨by rfl, by decide, by rfl⟩

/-- C7 amended: an override below 28 is discarded with a warning and the
OS default stored (even if itself below 28); an override equal to the
default keeps the default; a differing valid override stores the re-read
applied size - warning exactly when the applied size is smaller; the OS
is only ever asked for sizes of at least 28; and the stored size is at
least 28 whenever the OS default and OS-applied sizes are. -/
theorem c7_bufsize_negotiation_amended :
    (∀ dflt v applied, v < udpOverhead →
      setBufSizeDir dflt (some v) applied = (dflt, [BufWarn.invalid])) ∧
    (∀ dflt applied, udpOverhead ≤ dflt →
      setBufSizeDir dflt (some dflt) applied = (dflt, [])) ∧
    (∀ dflt v applied, udpOverhead ≤ v → v ≠ dflt →
      (setBufSizeDir dflt (some v) applied).1 = applied v ∧
      (applied v < v → (setBufSizeDir dflt (some v) applied).2 = [BufWarn.clamped]) ∧
      (v ≤ applied v → (setBufSizeDir dflt (some v) applied).2 = [])) ∧
    (∀ dflt propVal f g, (∀ r, udpOverhead ≤ r → f r = g r) →
      setBufSizeDir dflt propVal f = setBufSizeDir dflt propVal g) ∧
    (∀ dflt propVal f, udpOverhead ≤ dflt →
      (∀ r, udpOverhead ≤ r → udpOverhead ≤ f r) →
      udpOverhead ≤ (setBufSizeDir dflt propVal f).1) := by
  refine ⟨?_, ?_, ?_, ?_, ?_⟩
  · intro dflt v applied hv
    simp [setBufSizeDir, hv]
  · intro dflt applied h
    simp [setBufSizeDir, not_lt.mpr h]
  · intro dflt v applied hv hne
    have h' : ¬(v < udpOverhead) := not_lt.mpr hv
    refine ⟨by simp [setBufSizeDir, h', hne], fun ha => ?_, fun ha => ?_⟩
    · simp [setBufSizeDir, h', hne, ha]
    · simp [setBufSizeDir, h', hne, not_lt.mpr ha]
  · intro dflt propVal f g hfg
    by_cases h1 : propVal.getD dflt < udpOverhead
    · simp [setBufSizeDir, h1]
    · by_cases h2 : propVal.getD dflt = dflt
      · simp [setBufSizeDir, h1, h2]
      · simp [setBufSizeDir, h1, h2, hfg _ (not_lt.mp h1)]
  · intro dflt propVal f hd hf
    by_cases h1 : propVal.getD dflt < udpOverhead
    · simpa [setBufSizeDir, h1] using hd
    · by_cases h2 : propVal.getD dflt = dflt
      · simpa [setBufSizeDir, h1, h2] using hd
      · simpa [setBufSizeDir, h1, h2] using hf _ (not_lt.mp h1)

/-- Witness for C7: a below-floor override, a matching override, and a
clamped differing override. -/
theorem c7_bufsize_negotiation_amended_witness :
    ((5 : Int) < udpOverhead ∧
      setBufSizeDir 10 (some 5) (fun r => r) = (10, [BufWarn.invalid])) ∧
    (udpOverhead ≤ (1000 : Int) ∧
      setBufSizeDir 1000 (some 1000) (fun r => r) = (1000, [])) ∧
    (udpOverhead ≤ (2000 : Int) ∧ (2000 : Int) ≠ 1000 ∧
      (setBufSizeDir 1000 (some 2000) (fun _ => 1500)).1 = 1500) :=
  ⟨⟨by decide, c7_bufsize_negotiation_amended.1 10 5 (fun r => r) (by decide)⟩,
   ⟨by decide, c7_bufsize_negotiation_amended.2.1 1000 (fun r => r) (by decide)⟩,
   ⟨by decide, by decide,
     (c7_bufsize_negotiation_amended.2.2.1 1000 2000 (fun _ => (1500 : Int))
       (by decide) (by decide)).1⟩⟩

/-- The send loop never finishes when every send would block and every
wait reports readiness, for any amount of fuel. -/
theorem writeRepeat_spur (os : OS) (hsend : ∀ i, os.send i = .wouldBlock)
    (hwait : ∀ i, os.wait i = .ready) (t : Int) (ht : t ≠ 0) :
    ∀ fuel si wi tr, writeRepeat os t fuel si wi tr = none := by
  intro fuel
  induction fuel with
  | zero => intro si wi tr; rfl
  | succ n ih =>
    intro si wi tr
    rw [writeRepeat, hsend si]
    dsimp only
    have hsel : writeSelect os t (n + 1) wi (tr ++ [Event.send]) =
        some (.again (wi + 1) ((tr ++ [Event.send]) ++ [Event.waitWrite t])) := by
      rw [writeSelect, if_neg ht, hwait wi]
    rw [hsel]
    exact ih (si + 1) (wi + 1) ((tr ++ [Event.send]) ++ [Event.waitWrite t])

/-- C9 counterexample: an oracle that never reports an interruption but
always reports a blocked send and a spuriously ready wait makes
`write(_, 5)` loop forever - finitely many interruptions alone do not
ensure termination. -/
theorem c9_cex_no_interruptions_nontermination :
    interruptionFree osSpur ∧ ¬ writeTerminates osSpur 1000 10 5 := by
  constructor
  · intro i
    refine ⟨?_, ?_, ?_⟩ <;> simp [osSpur, osOk]
  · rintro ⟨fuel, out, h⟩
    simp only [write] at h
    split at h
    · next hps => exact absurd hps (by decide)
    · rw [writeRepeat_spur osSpur (fun _ => rfl) (fun _ => rfl) 5 (by decide)
        fuel 0 0 []] at h
      simp at h

/-- C9 amended: an interrupted send, receive or wait always retries
exactly that step (no error and no "not ready" return can come from an
interruption); and the operation terminates provided that, beyond some
point, the oracle stops reporting interruptions and also stops reporting
would-block/spurious-readiness cycles. -/
theorem c9_eintr_retried_and_termination :
    (∀ os t fuel si wi tr, os.send si = SendRes.interrupted →
      writeRepeat os t (fuel + 1) si wi tr =
        writeRepeat os t fuel (si + 1) wi (tr ++ [Event.send])) ∧
    (∀ os t fuel wi tr, t ≠ 0 → os.wait wi = WaitRes.interrupted →
      writeSelect os t (fuel + 1) wi tr =
        writeSelect os t fuel (wi + 1) (tr ++ [Event.waitWrite t])) ∧
    (∀ os ps t fuel ci si wi c bl tr, os.shut ci = false →
      os.recv si = RecvRes.interrupted →
      readRepeat os ps t (fuel + 1) ci si wi c bl tr =
        readRepeat os ps t fuel (ci + 1) (si + 1) wi c bl (tr ++ [Event.recv ps])) ∧
    (∀ os fuel wi tr, os.wait wi = WaitRes.interrupted →
      readSelect os (fuel + 1) wi tr =
        readSelect os fuel (wi + 1) (tr ++ [Event.waitRead (-1)])) ∧
    (∀ os sndSize bl t N M,
      (∀ i, N ≤ i → os.send i ≠ SendRes.interrupted ∧ os.send i ≠ SendRes.wouldBlock) →
      (∀ i, M ≤ i → os.wait i ≠ WaitRes.interrupted) →
      writeTerminates os sndSize bl t) ∧
    (∀ os rcvSize bl t c N M,
      (∀ i, N ≤ i → os.recv i ≠ RecvRes.interrupted ∧ os.recv i ≠ RecvRes.wouldBlock) →
      (∀ i, M ≤ i → os.wait i ≠ WaitRes.interrupted) →
      readTerminates os rcvSize bl t c) := by
  refine ⟨?_, ?_, ?_, ?_, ?_, ?_⟩
  · intro os t fuel si wi tr h
    rw [writeRepeat, h]
  · intro os t fuel wi tr ht h
    rw [writeSelect, if_neg ht, h]
  · intro os ps t fuel ci si wi c bl tr hsh h
    rw [readRepeat, hsh, h]
    rfl
  · intro os fuel wi tr h
    rw [readSelect, h]
  · intro os sndSize bl t N M hN hM
    by_cases hp : min maxPacketSize (sndSize - udpOverhead) < (bl : Int)
    · exact ⟨0, ⟨.exc (.val .datagramLimit), []⟩, by simp only [write]; rw [if_pos hp]⟩
    · obtain ⟨out, hout⟩ := writeRepeat_term os t N M hN hM N 0 0 [] (by omega)
      exact ⟨N + M + 1, out, by simp only [write]; rw [if_neg hp]; exact hout⟩
  · intro os rcvSize bl t c N M hN hM
    by_cases hp : min maxPacketSize (rcvSize - udpOverhead) < (bl : Int)
    · exact ⟨0, ⟨.exc (.val .datagramLimit), c, bl, [], 0⟩,
        by simp only [read]; rw [if_pos hp]⟩
    · obtain ⟨out, hout⟩ := readRepeat_term os _ t N M hN hM N 0 0 0 c _ [] (by omega)
      exact ⟨N + M + 1, out, by simp only [read]; rw [if_neg hp]; exact hout⟩

/-- Witness for C9: two interrupted sends retried then success; reads
terminate with no interruptions at all. -/
theorem c9_eintr_retried_and_termination_witness :
    (osI.send 0 = SendRes.interrupted ∧
      writeRepeat osI (-1) 3 0 0 [] = writeRepeat osI (-1) 2 1 0 [Event.send]) ∧
    writeTerminates osI 1000 10 (-1) ∧
    readTerminates osOk 1000 10 (-1) false :=
  ⟨⟨by rfl, c9_eintr_retried_and_termination.1 osI (-1) 2 0 0 [] (by rfl)⟩,
   c9_eintr_retried_and_termination.2.2.2.2.1 osI 1000 10 (-1) 2 0
     (by
       intro i hi
       have hs : osI.send i = SendRes.ok := by
         simp only [osI, osOk]
         rw [if_neg (by omega)]
       rw [hs]
       exact ⟨by simp, by simp⟩)
     (by intro i hi; simp [osI, osOk]),
   c9_eintr_retried_and_termination.2.2.2.2.2 osOk 1000 10 (-1) false 0 0
     (by intro i hi; exact ⟨by simp [osOk], by simp [osOk]⟩)
     (by intro i hi; simp [osOk])⟩

end UdpTransceiver
